import Mathlib

/-!
Shallow embedding of `src/concept_mastery_tracker.py`.

Modelling conventions:
* Python floats are modelled as exact rationals (`ℚ`).
* Timestamps are modelled at day granularity as integers (`ℤ`); the ambient
  wall-clock (`datetime.now()`) is passed as an explicit `now : ℤ` parameter.
* Python's `int(x)` truncation toward zero is `pyInt`.
* Python's stable `sorted` is modelled by `List.insertionSort` (a stable sort
  agrees with Python's stable mergesort on any total preorder key).
* A `nextReviewDate` field of a record dict is `Option DateField`: `none` when
  the key is missing or falsy, `some .malformed` when present but unparseable
  by `datetime.fromisoformat`, `some (.valid t)` when it parses to time `t`.
-/

/-- BKT parameter `p_L0`: prior probability of knowing the concept. -/
def p_L0 : ℚ := 0.3

/-- BKT parameter `p_T`: probability of learning from an attempt. -/
def p_T : ℚ := 0.3

/-- BKT parameter `p_G`: probability of guessing correctly. -/
def p_G : ℚ := 0.2

/-- BKT parameter `p_S`: probability of slipping. -/
def p_S : ℚ := 0.1

/-- Line 39 of the source: `p_correct_given_know = (1 - self.p_S) * current_mastery`. -/
def p_correct_given_know (m : ℚ) : ℚ := (1 - p_S) * m

/-- Line 40: `p_correct_given_not_know = self.p_G * (1 - current_mastery)`. -/
def p_correct_given_not_know (m : ℚ) : ℚ := p_G * (1 - m)

/-- Line 41: `p_correct = p_correct_given_know + p_correct_given_not_know`. -/
def p_correct (m : ℚ) : ℚ := p_correct_given_know m + p_correct_given_not_know m

/-- Line 51: `p_wrong_given_know = self.p_S * current_mastery`. -/
def p_wrong_given_know (m : ℚ) : ℚ := p_S * m

/-- Line 52: `p_wrong_given_not_know = (1 - self.p_G) * (1 - current_mastery)`. -/
def p_wrong_given_not_know (m : ℚ) : ℚ := (1 - p_G) * (1 - m)

/-- Line 53: `p_wrong = p_wrong_given_know + p_wrong_given_not_know`. -/
def p_wrong (m : ℚ) : ℚ := p_wrong_given_know m + p_wrong_given_not_know m

/-- `BayesianKnowledgeTracing.update_mastery` (lines 25-65): Bayesian posterior,
learning increment only on an incorrect answer, then clamp to [0,1]. -/
def update_mastery (current_mastery : ℚ) (is_correct : Bool) : ℚ :=
  let posterior :=
    if is_correct then
      if p_correct current_mastery > 0 then
        p_correct_given_know current_mastery / p_correct current_mastery
      else current_mastery
    else
      if p_wrong current_mastery > 0 then
        p_wrong_given_know current_mastery / p_wrong current_mastery
      else current_mastery
  let new_mastery :=
    if is_correct then posterior else posterior + p_T * (1 - posterior)
  min 1 (max 0 new_mastery)

/-- `BayesianKnowledgeTracing.get_mastery_level` (lines 67-78). -/
def get_mastery_level (mastery_prob : ℚ) : String :=
  if mastery_prob ≥ 0.9 then "mastered"
  else if mastery_prob ≥ 0.7 then "proficient"
  else if mastery_prob ≥ 0.5 then "developing"
  else if mastery_prob ≥ 0.3 then "beginning"
  else "novice"

/-- Parse status of a `nextReviewDate` value that is present in a record. -/
inductive DateField where
  | malformed : DateField
  | valid : ℤ → DateField
deriving DecidableEq

/-- A concept mastery record dict; only the keys the core reads are modelled.
`masteryLevel` is `Option` because the code reads it with `.get('masteryLevel', 0)`. -/
structure ConceptRecord where
  conceptId : ℕ
  masteryLevel : Option ℚ
  nextReviewDate : Option DateField
deriving DecidableEq

/-- Value of `record.get('masteryLevel', 0)`. -/
def masteryOf (r : ConceptRecord) : ℚ := r.masteryLevel.getD 0

/-- Result dict of `ConceptMasteryTracker.update_from_question_attempt`. -/
structure AttemptResult where
  masteryLevel : ℚ
  attempts : ℤ
  correctAttempts : ℤ
  masteryLevelLabel : String
  lastReviewed : ℤ
deriving DecidableEq

/-- `ConceptMasteryTracker.update_from_question_attempt` (lines 89-112); the
trailing `now` argument models the `datetime.now()` call on line 111. -/
def update_from_question_attempt (current_mastery : ℚ) (attempts : ℤ)
    (correct_attempts : ℤ) (is_correct : Bool) (now : ℤ) : AttemptResult :=
  let new_mastery := update_mastery current_mastery is_correct
  { masteryLevel := new_mastery
    attempts := attempts + 1
    correctAttempts := correct_attempts + (if is_correct then 1 else 0)
    masteryLevelLabel := get_mastery_level new_mastery
    lastReviewed := now }

/-- `ConceptMasteryTracker.get_weak_concepts` (lines 114-129): filter records
with mastery strictly below the threshold, then stable-sort ascending by mastery. -/
def get_weak_concepts (records : List ConceptRecord) (threshold : ℚ) :
    List ConceptRecord :=
  List.insertionSort (fun a b => masteryOf a ≤ masteryOf b)
    (records.filter (fun r => decide (masteryOf r < threshold)))

/-- Result dict of `ConceptMasteryTracker.get_mastery_summary`. -/
structure MasterySummary where
  total : ℕ
  mastered : ℕ
  proficient : ℕ
  developing : ℕ
  beginning : ℕ
  novice : ℕ
  averageMastery : ℚ
deriving DecidableEq

/-- `ConceptMasteryTracker.get_mastery_summary` (lines 131-162). -/
def get_mastery_summary (records : List ConceptRecord) : MasterySummary :=
  if records.isEmpty then
    { total := 0, mastered := 0, proficient := 0, developing := 0
      beginning := 0, novice := 0, averageMastery := 0 }
  else
    let count : String → ℕ := fun lbl =>
      records.countP (fun r => decide (get_mastery_level (masteryOf r) = lbl))
    { total := records.length
      mastered := count "mastered"
      proficient := count "proficient"
      developing := count "developing"
      beginning := count "beginning"
      novice := count "novice"
      averageMastery := (records.map masteryOf).sum / records.length }

/-- SM-2 parameter: minimum days between reviews. -/
def min_interval : ℤ := 1

/-- SM-2 parameter: maximum days between reviews. -/
def max_interval : ℤ := 365

/-- Python `int(x)`: truncation of a rational toward zero. -/
def pyInt (q : ℚ) : ℤ := Int.tdiv q.num (q.den : ℤ)

/-- Result dict of `SpacedRepetitionScheduler.calculate_next_review`. -/
structure ReviewResult where
  nextReviewDate : ℤ
  interval : ℤ
  easeFactor : ℚ
  quality : ℕ
deriving DecidableEq

/-- Mastery-to-quality mapping (lines 198-208). -/
def quality_of (m : ℚ) : ℕ :=
  if m ≥ 0.9 then 5
  else if m ≥ 0.7 then 4
  else if m ≥ 0.5 then 3
  else if m ≥ 0.3 then 2
  else 1

/-- Interval growth in the pass branch (lines 217-222). -/
def next_interval_raw (current_interval : ℤ) (ease_factor : ℚ) : ℤ :=
  if current_interval = 0 then min_interval
  else if current_interval = min_interval then 6
  else pyInt ((current_interval : ℚ) * ease_factor)

/-- `SpacedRepetitionScheduler.calculate_next_review` (lines 176-239); the
trailing `now` argument models the `datetime.now()` call on line 196, used
only when `last_review_date` is absent. -/
def calculate_next_review (current_mastery : ℚ) (last_review_date : Option ℤ)
    (current_interval : ℤ) (ease_factor : ℚ) (now : ℤ) : ReviewResult :=
  let last := last_review_date.getD now
  let quality := quality_of current_mastery
  let raw_interval :=
    if quality < 3 then min_interval
    else next_interval_raw current_interval ease_factor
  let new_ease :=
    if quality < 3 then max 1.3 (ease_factor - 0.2)
    else max 1.3 (ease_factor +
      (0.1 - (5 - (quality : ℚ)) * (0.08 + (5 - (quality : ℚ)) * 0.02)))
  let new_interval := max min_interval (min max_interval raw_interval)
  { nextReviewDate := last + new_interval
    interval := new_interval
    easeFactor := new_ease
    quality := quality }

/-- An element of the list returned by `get_due_concepts`: the input record
plus the `daysOverdue` key. -/
structure DueRecord where
  record : ConceptRecord
  daysOverdue : ℤ
deriving DecidableEq

/-- Per-record body of the loop in `get_due_concepts` (lines 261-277): a
missing/falsy `nextReviewDate` is skipped, an unparseable one yields the 999
sentinel, a parsed one is kept iff it is not in the future. -/
def due_entry (current_date : ℤ) (r : ConceptRecord) : Option DueRecord :=
  match r.nextReviewDate with
  | none => none
  | some DateField.malformed => some ⟨r, 999⟩
  | some (DateField.valid t) =>
      if t ≤ current_date then some ⟨r, current_date - t⟩ else none

/-- `SpacedRepetitionScheduler.get_due_concepts` (lines 241-280); the trailing
`now` argument models the `datetime.now()` call on line 257, used only when
`current_date` is absent. The final sort is stable descending by `daysOverdue`. -/
def get_due_concepts (records : List ConceptRecord) (current_date : Option ℤ)
    (now : ℤ) : List DueRecord :=
  let cd := current_date.getD now
  List.insertionSort (fun a b => b.daysOverdue ≤ a.daysOverdue)
    (records.filterMap (due_entry cd))

/-- Risk threshold for the "high" level. -/
def high_risk_threshold : ℚ := 0.7

/-- Risk threshold for the "medium" level. -/
def medium_risk_threshold : ℚ := 0.4

/-- Passing score threshold. -/
def passing_score : ℚ := 75.0

/-- Risk factor messages of `calculate_risk_score`, as tags; the
`predictedBelowPassing` tag carries the interpolated predicted score. -/
inductive RiskFactor where
  | avgBelow60 : RiskFactor
  | avgBelow70 : RiskFactor
  | predictedBelowPassing : ℚ → RiskFactor
  | declining : RiskFactor
  | slightlyDeclining : RiskFactor
  | inconsistent : RiskFactor
  | lowImprovement : RiskFactor
deriving DecidableEq

/-- Recommendation messages of `_generate_recommendations`, as tags; the
`improveGap` tag carries the interpolated gap `75 - predicted_score`. -/
inductive Recommendation where
  | urgentMeeting : Recommendation
  | studyThreeToFourHours : Recommendation
  | focusFundamentals : Recommendation
  | joinStudyGroup : Recommendation
  | studyTwoToThreeHours : Recommendation
  | focusWeakest : Recommendation
  | reviewPastTests : Recommendation
  | consistentSchedule : Recommendation
  | maintainHabits : Recommendation
  | continueFocus : Recommendation
  | practiceTests : Recommendation
  | reviewBasics : Recommendation
  | improveGap : ℚ → Recommendation
deriving DecidableEq

/-- Result dict of `EarlyInterventionDetector.calculate_risk_score`. -/
structure RiskAssessment where
  riskScore : ℚ
  riskLevel : String
  predictedScore : ℚ
  currentAverageScore : ℚ
  weeksUntilExam : ℤ
  riskFactors : List RiskFactor
  recommendations : List Recommendation
deriving DecidableEq

/-- Least-squares slope of scores against their indices, exactly as
`np.polyfit(range(n), ys, 1)[0]` computes it in exact arithmetic; `0` when
fewer than two points (lines 320-323). -/
def trend_slope (ys : List ℚ) : ℚ :=
  if ys.length ≥ 2 then
    let n : ℚ := ys.length
    let sx := ((List.range ys.length).map (fun i => (i : ℚ))).sum
    let sy := ys.sum
    let sxy := (List.zipWith (fun i y => (i : ℚ) * y) (List.range ys.length) ys).sum
    let sxx := ((List.range ys.length).map (fun i => (i : ℚ) ^ 2)).sum
    (n * sxy - sx * sy) / (n * sxx - sx ^ 2)
  else 0

/-- `EarlyInterventionDetector._generate_recommendations` (lines 389-420). -/
def generate_recommendations (risk_score avg_score predicted_score : ℚ) :
    List Recommendation :=
  (if risk_score ≥ 0.7 then
    [Recommendation.urgentMeeting, Recommendation.studyThreeToFourHours,
     Recommendation.focusFundamentals, Recommendation.joinStudyGroup]
   else if risk_score ≥ 0.4 then
    [Recommendation.studyTwoToThreeHours, Recommendation.focusWeakest,
     Recommendation.reviewPastTests, Recommendation.consistentSchedule]
   else
    [Recommendation.maintainHabits, Recommendation.continueFocus,
     Recommendation.practiceTests])
  ++ (if avg_score < 70 then [Recommendation.reviewBasics] else [])
  ++ (if predicted_score < 75 then
        [Recommendation.improveGap (75 - predicted_score)] else [])

/-- `EarlyInterventionDetector.calculate_risk_score` (lines 295-387).
`current_scores` is the list of values of the scores dict. -/
def calculate_risk_score (current_scores : List ℚ) (score_trend : List ℚ)
    (consistency : ℚ) (improvement_rate : ℚ) (weeks_until_exam : ℤ) :
    RiskAssessment :=
  let avg_score := if current_scores = [] then 0
    else current_scores.sum / current_scores.length
  let slope := trend_slope score_trend
  let predicted_score := avg_score + improvement_rate * weeks_until_exam
  let s1 : ℚ := if avg_score < 60 then 0.4 else if avg_score < 70 then 0.2 else 0
  let f1 : List RiskFactor := if avg_score < 60 then [RiskFactor.avgBelow60]
    else if avg_score < 70 then [RiskFactor.avgBelow70] else []
  let s2 : ℚ := if predicted_score < passing_score then 0.3 else 0
  let f2 : List RiskFactor := if predicted_score < passing_score then
    [RiskFactor.predictedBelowPassing predicted_score] else []
  let s3 : ℚ := if slope < -1 then 0.2 else if slope < 0 then 0.1 else 0
  let f3 : List RiskFactor := if slope < -1 then [RiskFactor.declining]
    else if slope < 0 then [RiskFactor.slightlyDeclining] else []
  let s4 : ℚ := if consistency < 0.6 then 0.1 else 0
  let f4 : List RiskFactor := if consistency < 0.6 then
    [RiskFactor.inconsistent] else []
  let s5 : ℚ := if improvement_rate < 0.5 then 0.1 else 0
  let f5 : List RiskFactor := if improvement_rate < 0.5 then
    [RiskFactor.lowImprovement] else []
  let risk_score := min 1 (max 0 (s1 + s2 + s3 + s4 + s5))
  let risk_level := if risk_score ≥ high_risk_threshold then "high"
    else if risk_score ≥ medium_risk_threshold then "medium" else "low"
  { riskScore := risk_score
    riskLevel := risk_level
    predictedScore := predicted_score
    currentAverageScore := avg_score
    weeksUntilExam := weeks_until_exam
    riskFactors := f1 ++ f2 ++ f3 ++ f4 ++ f5
    recommendations := generate_recommendations risk_score avg_score predicted_score }

/-- Modelled from the spec: the update rule exactly as section 4.1 of the spec
words it (posterior on the answer, learning increment only in the
incorrect-answer branch), before any clamping. Used only to compare with the
code's `update_mastery` in claim C1. -/
def spec_update_mastery (m : ℚ) (isCorrect : Bool) : ℚ :=
  if isCorrect then
    let pCorrectGivenKnow := (1 - 0.1) * m
    let pCorrectGivenNotKnow := 0.2 * (1 - m)
    let pCorrect := pCorrectGivenKnow + pCorrectGivenNotKnow
    if pCorrect > 0 then pCorrectGivenKnow / pCorrect else m
  else
    let pWrongGivenKnow := 0.1 * m
    let pWrongGivenNotKnow := (1 - 0.2) * (1 - m)
    let pWrong := pWrongGivenKnow + pWrongGivenNotKnow
    let posterior := if pWrong > 0 then pWrongGivenKnow / pWrong else m
    posterior + 0.3 * (1 - posterior)

/-! Sorting relation instances for the two stable sorts. -/

instance : IsTotal ConceptRecord (fun a b => masteryOf a ≤ masteryOf b) :=
  ⟨fun a b => le_total (masteryOf a) (masteryOf b)⟩

instance : IsTrans ConceptRecord (fun a b => masteryOf a ≤ masteryOf b) :=
  ⟨fun _ _ _ hab hbc => le_trans hab hbc⟩

instance : IsTotal DueRecord (fun a b => b.daysOverdue ≤ a.daysOverdue) :=
  ⟨fun a b => le_total b.daysOverdue a.daysOverdue⟩

instance : IsTrans DueRecord (fun a b => b.daysOverdue ≤ a.daysOverdue) :=
  ⟨fun _ _ _ hab hbc => le_trans hbc hab⟩


/-! Shared helper lemmas. -/

lemma p_correct_pos (m : ℚ) (h0 : 0 ≤ m) (h1 : m ≤ 1) : 0 < p_correct m := by
  unfold p_correct p_correct_given_know p_correct_given_not_know p_S p_G
  nlinarith

lemma p_wrong_pos (m : ℚ) (h0 : 0 ≤ m) (h1 : m ≤ 1) : 0 < p_wrong m := by
  unfold p_wrong p_wrong_given_know p_wrong_given_not_know p_S p_G
  nlinarith

lemma correct_posterior_nonneg (m : ℚ) (h0 : 0 ≤ m) (h1 : m ≤ 1) :
    0 ≤ p_correct_given_know m / p_correct m :=
  div_nonneg (by unfold p_correct_given_know p_S; nlinarith) (p_correct_pos m h0 h1).le

lemma correct_posterior_le_one (m : ℚ) (h0 : 0 ≤ m) (h1 : m ≤ 1) :
    p_correct_given_know m / p_correct m ≤ 1 := by
  rw [div_le_one (p_correct_pos m h0 h1)]
  unfold p_correct p_correct_given_know p_correct_given_not_know p_S p_G
  nlinarith

lemma wrong_posterior_nonneg (m : ℚ) (h0 : 0 ≤ m) (h1 : m ≤ 1) :
    0 ≤ p_wrong_given_know m / p_wrong m :=
  div_nonneg (by unfold p_wrong_given_know p_S; nlinarith) (p_wrong_pos m h0 h1).le

lemma wrong_posterior_le_one (m : ℚ) (h0 : 0 ≤ m) (h1 : m ≤ 1) :
    p_wrong_given_know m / p_wrong m ≤ 1 := by
  rw [div_le_one (p_wrong_pos m h0 h1)]
  unfold p_wrong p_wrong_given_know p_wrong_given_not_know p_S p_G
  nlinarith

/-- Claim C1: for every currentMastery in [0,1] and every boolean isCorrect,
update_mastery with the default parameters computes exactly the Bayesian
posterior given in the spec (pCorrectGivenKnow / pCorrect on a correct answer,
pWrongGivenKnow / pWrong on an incorrect answer, leaving mastery unchanged when
the denominator is 0), and applies the learning increment
newMastery += pT * (1 - newMastery) only in the incorrect-answer branch. -/
theorem C1_update_matches_spec (m : ℚ) (h0 : 0 ≤ m) (h1 : m ≤ 1) (b : Bool) :
    update_mastery m b = spec_update_mastery m b := by
  cases b with
  | true =>
      have hc := p_correct_pos m h0 h1
      have hq0 := correct_posterior_nonneg m h0 h1
      have hq1 := correct_posterior_le_one m h0 h1
      unfold update_mastery spec_update_mastery
      simp only [eq_self_iff_true, if_true]
      unfold p_correct p_correct_given_know p_correct_given_not_know p_S p_G at hc hq0 hq1 ⊢
      rw [if_pos hc, max_eq_right hq0, min_eq_right hq1]
  | false =>
      have hw := p_wrong_pos m h0 h1
      have hq0 := wrong_posterior_nonneg m h0 h1
      have hq1 := wrong_posterior_le_one m h0 h1
      unfold update_mastery spec_update_mastery
      simp only [Bool.false_eq_true, if_false]
      unfold p_wrong p_wrong_given_know p_wrong_given_not_know p_S p_G at hw hq0 hq1
      unfold p_T p_wrong p_wrong_given_know p_wrong_given_not_know p_S p_G
      rw [if_pos hw]
      rw [max_eq_right (by linarith), min_eq_right (by linarith)]

/-- Witness for C1 at currentMastery = 0.5, isCorrect = true. -/
theorem C1_witness :
    (0 : ℚ) ≤ 0.5 ∧ (0.5 : ℚ) ≤ 1 ∧
    update_mastery 0.5 true = spec_update_mastery 0.5 true :=
  ⟨by norm_num, by norm_num,
    C1_update_matches_spec 0.5 (by norm_num) (by norm_num) true⟩

/-- Claim C2: for every currentMastery in [0,1] and every boolean isCorrect,
update_mastery returns a value in [0,1]. -/
theorem C2_update_in_unit_interval (m : ℚ) (h0 : 0 ≤ m) (h1 : m ≤ 1) (b : Bool) :
    0 ≤ update_mastery m b ∧ update_mastery m b ≤ 1 := by
  unfold update_mastery
  exact ⟨le_min (by norm_num) (le_max_left _ _), min_le_left _ _⟩

/-- Witness for C2 at currentMastery = 0.5, isCorrect = false. -/
theorem C2_witness :
    (0 : ℚ) ≤ 0.5 ∧ (0.5 : ℚ) ≤ 1 ∧
    (0 ≤ update_mastery 0.5 false ∧ update_mastery 0.5 false ≤ 1) :=
  ⟨by norm_num, by norm_num,
    C2_update_in_unit_interval 0.5 (by norm_num) (by norm_num) false⟩

/-- Claim C10: with the default parameters pS = 0.1, pG = 0.2, for every
currentMastery in [0,1] both denominators pCorrect and pWrong are strictly
positive, so the divisions in update_mastery are well-defined and the
else-unchanged fallback branches are unreachable under the precondition. -/
theorem C10_denominators_positive (m : ℚ) (h0 : 0 ≤ m) (h1 : m ≤ 1) :
    0 < p_correct m ∧ 0 < p_wrong m :=
  ⟨p_correct_pos m h0 h1, p_wrong_pos m h0 h1⟩

/-- Witness for C10 at currentMastery = 0.5. -/
theorem C10_witness :
    (0 : ℚ) ≤ 0.5 ∧ (0.5 : ℚ) ≤ 1 ∧ (0 < p_correct 0.5 ∧ 0 < p_wrong 0.5) :=
  ⟨by norm_num, by norm_num,
    C10_denominators_positive 0.5 (by norm_num) (by norm_num)⟩

/-! Scheduler helper lemmas. -/

lemma crv_bounds (m : ℚ) (last : Option ℤ) (ci : ℤ) (ef : ℚ) (now : ℤ) :
    1 ≤ (calculate_next_review m last ci ef now).interval ∧
    (calculate_next_review m last ci ef now).interval ≤ 365 ∧
    (1.3 : ℚ) ≤ (calculate_next_review m last ci ef now).easeFactor := by
  unfold calculate_next_review
  dsimp only
  refine ⟨?_, ?_, ?_⟩
  · unfold min_interval
    exact le_max_left 1 _
  · unfold min_interval max_interval
    exact max_le (by norm_num) (min_le_left _ _)
  · split
    · exact le_max_left _ _
    · exact le_max_left _ _

/-- Claim C3: for every input (currentMastery in [0,1], any lastReviewDate, any
integer currentInterval, any easeFactor), the result of calculate_next_review
has interval in [1, 365] and easeFactor at least 1.3; feeding the scheduler's
own output interval and ease factor back in for a further attempt keeps these
invariants. -/
theorem C3_scheduler_invariant (m m₂ : ℚ) (h0 : 0 ≤ m) (h1 : m ≤ 1)
    (h2 : 0 ≤ m₂) (h3 : m₂ ≤ 1) (last last₂ : Option ℤ) (ci : ℤ) (ef : ℚ)
    (now now₂ : ℤ) :
    (1 ≤ (calculate_next_review m last ci ef now).interval ∧
     (calculate_next_review m last ci ef now).interval ≤ 365 ∧
     (1.3 : ℚ) ≤ (calculate_next_review m last ci ef now).easeFactor) ∧
    (1 ≤ (calculate_next_review m₂ last₂
            (calculate_next_review m last ci ef now).interval
            (calculate_next_review m last ci ef now).easeFactor now₂).interval ∧
     (calculate_next_review m₂ last₂
        (calculate_next_review m last ci ef now).interval
        (calculate_next_review m last ci ef now).easeFactor now₂).interval ≤ 365 ∧
     (1.3 : ℚ) ≤ (calculate_next_review m₂ last₂
        (calculate_next_review m last ci ef now).interval
        (calculate_next_review m last ci ef now).easeFactor now₂).easeFactor) :=
  ⟨crv_bounds m last ci ef now,
   crv_bounds m₂ last₂ (calculate_next_review m last ci ef now).interval
     (calculate_next_review m last ci ef now).easeFactor now₂⟩

/-- Witness for C3 at m = 0.95, m₂ = 0.2, interval 1, ease factor 2.5. -/
theorem C3_witness :
    (0 : ℚ) ≤ 0.95 ∧ (0.95 : ℚ) ≤ 1 ∧ (0 : ℚ) ≤ 0.2 ∧ (0.2 : ℚ) ≤ 1 ∧
    ((1 ≤ (calculate_next_review 0.95 (some 0) 1 2.5 0).interval ∧
      (calculate_next_review 0.95 (some 0) 1 2.5 0).interval ≤ 365 ∧
      (1.3 : ℚ) ≤ (calculate_next_review 0.95 (some 0) 1 2.5 0).easeFactor) ∧
     (1 ≤ (calculate_next_review 0.2 (some 6)
             (calculate_next_review 0.95 (some 0) 1 2.5 0).interval
             (calculate_next_review 0.95 (some 0) 1 2.5 0).easeFactor 6).interval ∧
      (calculate_next_review 0.2 (some 6)
         (calculate_next_review 0.95 (some 0) 1 2.5 0).interval
         (calculate_next_review 0.95 (some 0) 1 2.5 0).easeFactor 6).interval ≤ 365 ∧
      (1.3 : ℚ) ≤ (calculate_next_review 0.2 (some 6)
         (calculate_next_review 0.95 (some 0) 1 2.5 0).interval
         (calculate_next_review 0.95 (some 0) 1 2.5 0).easeFactor 6).easeFactor)) :=
  ⟨by norm_num, by norm_num, by norm_num, by norm_num,
    C3_scheduler_invariant 0.95 0.2 (by norm_num) (by norm_num) (by norm_num)
      (by norm_num) (some 0) (some 6) 1 2.5 0 6⟩

/-- Claim C5: for every currentMastery below 0.3, every currentInterval and
every easeFactor, calculate_next_review returns interval = 1 and
easeFactor = max(1.3, easeFactor - 0.2), regardless of the prior interval. -/
theorem C5_low_mastery_resets (m : ℚ) (hm : m < 0.3) (last : Option ℤ)
    (ci : ℤ) (ef : ℚ) (now : ℤ) :
    (calculate_next_review m last ci ef now).interval = 1 ∧
    (calculate_next_review m last ci ef now).easeFactor = max 1.3 (ef - 0.2) := by
  have hq : quality_of m = 1 := by
    unfold quality_of
    rw [if_neg (not_le.mpr (by linarith)), if_neg (not_le.mpr (by linarith)),
        if_neg (not_le.mpr (by linarith)), if_neg (not_le.mpr hm)]
  unfold calculate_next_review
  dsimp only
  rw [hq]
  norm_num [min_interval, max_interval]

/-- Witness for C5 at m = 0.2, interval 30, ease factor 2.5. -/
theorem C5_witness :
    (0.2 : ℚ) < 0.3 ∧
    ((calculate_next_review 0.2 none 30 2.5 0).interval = 1 ∧
     (calculate_next_review 0.2 none 30 2.5 0).easeFactor = max 1.3 (2.5 - 0.2)) :=
  ⟨by norm_num, C5_low_mastery_resets 0.2 (by norm_num) none 30 2.5 0⟩

/-! Classification helper lemmas. -/

lemma gml_mastered (m : ℚ) (h : 0.9 ≤ m) : get_mastery_level m = "mastered" := by
  unfold get_mastery_level
  rw [if_pos h]

lemma gml_proficient (m : ℚ) (hl : 0.7 ≤ m) (hu : m < 0.9) :
    get_mastery_level m = "proficient" := by
  unfold get_mastery_level
  rw [if_neg (not_le.mpr hu), if_pos hl]

lemma gml_developing (m : ℚ) (hl : 0.5 ≤ m) (hu : m < 0.7) :
    get_mastery_level m = "developing" := by
  unfold get_mastery_level
  rw [if_neg (not_le.mpr (by linarith)), if_neg (not_le.mpr hu), if_pos hl]

lemma gml_beginning (m : ℚ) (hl : 0.3 ≤ m) (hu : m < 0.5) :
    get_mastery_level m = "beginning" := by
  unfold get_mastery_level
  rw [if_neg (not_le.mpr (by linarith)), if_neg (not_le.mpr (by linarith)),
      if_neg (not_le.mpr hu), if_pos hl]

lemma gml_novice (m : ℚ) (hu : m < 0.3) : get_mastery_level m = "novice" := by
  unfold get_mastery_level
  rw [if_neg (not_le.mpr (by linarith)), if_neg (not_le.mpr (by linarith)),
      if_neg (not_le.mpr (by linarith)), if_neg (not_le.mpr hu)]

/-- Claim C7: for every mastery in [0,1], get_mastery_level returns "mastered"
iff mastery is at least 0.9, "proficient" iff in [0.7, 0.9), "developing" iff
in [0.5, 0.7), "beginning" iff in [0.3, 0.5), and "novice" otherwise; in
particular at 0.9, 0.8999 and 0. -/
theorem C7_classify_bands (m : ℚ) (h0 : 0 ≤ m) (h1 : m ≤ 1) :
    (get_mastery_level m = "mastered" ↔ 0.9 ≤ m) ∧
    (get_mastery_level m = "proficient" ↔ 0.7 ≤ m ∧ m < 0.9) ∧
    (get_mastery_level m = "developing" ↔ 0.5 ≤ m ∧ m < 0.7) ∧
    (get_mastery_level m = "beginning" ↔ 0.3 ≤ m ∧ m < 0.5) ∧
    (get_mastery_level m = "novice" ↔ m < 0.3) ∧
    get_mastery_level 0.9 = "mastered" ∧
    get_mastery_level 0.8999 = "proficient" ∧
    get_mastery_level 0 = "novice" := by
  have H : (get_mastery_level m = "mastered" ↔ 0.9 ≤ m) ∧
      (get_mastery_level m = "proficient" ↔ 0.7 ≤ m ∧ m < 0.9) ∧
      (get_mastery_level m = "developing" ↔ 0.5 ≤ m ∧ m < 0.7) ∧
      (get_mastery_level m = "beginning" ↔ 0.3 ≤ m ∧ m < 0.5) ∧
      (get_mastery_level m = "novice" ↔ m < 0.3) := by
    rcases lt_or_le m 0.3 with h3 | h3
    · rw [gml_novice m h3]
      exact ⟨iff_of_false (by decide) (by intro h; linarith),
             iff_of_false (by decide) (by rintro ⟨h, -⟩; linarith),
             iff_of_false (by decide) (by rintro ⟨h, -⟩; linarith),
             iff_of_false (by decide) (by rintro ⟨h, -⟩; linarith),
             iff_of_true rfl h3⟩
    · rcases lt_or_le m 0.5 with h5 | h5
      · rw [gml_beginning m h3 h5]
        exact ⟨iff_of_false (by decide) (by intro h; linarith),
               iff_of_false (by decide) (by rintro ⟨h, -⟩; linarith),
               iff_of_false (by decide) (by rintro ⟨h, -⟩; linarith),
               iff_of_true rfl ⟨h3, h5⟩,
               iff_of_false (by decide) (by intro h; linarith)⟩
      · rcases lt_or_le m 0.7 with h7 | h7
        · rw [gml_developing m h5 h7]
          exact ⟨iff_of_false (by decide) (by intro h; linarith),
                 iff_of_false (by decide) (by rintro ⟨h, -⟩; linarith),
                 iff_of_true rfl ⟨h5, h7⟩,
                 iff_of_false (by decide) (by rintro ⟨-, h⟩; linarith),
                 iff_of_false (by decide) (by intro h; linarith)⟩
        · rcases lt_or_le m 0.9 with h9 | h9
          · rw [gml_proficient m h7 h9]
            exact ⟨iff_of_false (by decide) (by intro h; linarith),
                   iff_of_true rfl ⟨h7, h9⟩,
                   iff_of_false (by decide) (by rintro ⟨-, h⟩; linarith),
                   iff_of_false (by decide) (by rintro ⟨-, h⟩; linarith),
                   iff_of_false (by decide) (by intro h; linarith)⟩
          · rw [gml_mastered m h9]
            exact ⟨iff_of_true rfl h9,
                   iff_of_false (by decide) (by rintro ⟨-, h⟩; linarith),
                   iff_of_false (by decide) (by rintro ⟨-, h⟩; linarith),
                   iff_of_false (by decide) (by rintro ⟨-, h⟩; linarith),
                   iff_of_false (by decide) (by intro h; linarith)⟩
  exact ⟨H.1, H.2.1, H.2.2.1, H.2.2.2.1, H.2.2.2.2,
    by norm_num [get_mastery_level], by norm_num [get_mastery_level],
    by norm_num [get_mastery_level]⟩

/-- Witness for C7 at mastery = 0.5. -/
theorem C7_witness :
    (0 : ℚ) ≤ 0.5 ∧ (0.5 : ℚ) ≤ 1 ∧
    ((get_mastery_level 0.5 = "mastered" ↔ (0.9 : ℚ) ≤ 0.5) ∧
     (get_mastery_level 0.5 = "proficient" ↔ (0.7 : ℚ) ≤ 0.5 ∧ (0.5 : ℚ) < 0.9) ∧
     (get_mastery_level 0.5 = "developing" ↔ (0.5 : ℚ) ≤ 0.5 ∧ (0.5 : ℚ) < 0.7) ∧
     (get_mastery_level 0.5 = "beginning" ↔ (0.3 : ℚ) ≤ 0.5 ∧ (0.5 : ℚ) < 0.5) ∧
     (get_mastery_level 0.5 = "novice" ↔ (0.5 : ℚ) < 0.3) ∧
     get_mastery_level 0.9 = "mastered" ∧
     get_mastery_level 0.8999 = "proficient" ∧
     get_mastery_level 0 = "novice") :=
  ⟨by norm_num, by norm_num,
    C7_classify_bands 0.5 (by norm_num) (by norm_num)⟩

/-- Claim C8: get_weak_concepts returns exactly the records whose mastery is
strictly below the threshold, sorted ascending by mastery (weakest first),
returns the empty list on empty input, and on masteries [0.9, 0.2, 0.5] with
threshold 0.7 returns the records with masteries 0.2 then 0.5. -/
theorem C8_weak_concepts (records : List ConceptRecord) (threshold : ℚ) :
    List.Perm (get_weak_concepts records threshold)
      (records.filter (fun r => decide (masteryOf r < threshold))) ∧
    List.Pairwise (fun a b => masteryOf a ≤ masteryOf b)
      (get_weak_concepts records threshold) ∧
    get_weak_concepts [] threshold = [] ∧
    get_weak_concepts
      [⟨0, some 0.9, none⟩, ⟨1, some 0.2, none⟩, ⟨2, some 0.5, none⟩] 0.7
      = [⟨1, some 0.2, none⟩, ⟨2, some 0.5, none⟩] := by
  refine ⟨?_, ?_, rfl, ?_⟩
  · unfold get_weak_concepts
    exact List.perm_insertionSort _ _
  · unfold get_weak_concepts
    exact List.sorted_insertionSort _ _
  · norm_num [get_weak_concepts, masteryOf, List.insertionSort,
      List.orderedInsert, List.filter]

/-! Due-query helper lemmas. -/

lemma due_entry_missing (cd : ℤ) (r : ConceptRecord)
    (h : r.nextReviewDate = none) : due_entry cd r = none := by
  unfold due_entry
  rw [h]

lemma due_entry_malformed (cd : ℤ) (r : ConceptRecord)
    (h : r.nextReviewDate = some DateField.malformed) :
    due_entry cd r = some ⟨r, 999⟩ := by
  unfold due_entry
  rw [h]

lemma due_entry_valid (cd : ℤ) (r : ConceptRecord) (t : ℤ)
    (h : r.nextReviewDate = some (DateField.valid t)) :
    due_entry cd r = if t ≤ cd then some ⟨r, cd - t⟩ else none := by
  unfold due_entry
  rw [h]

lemma due_entry_record (cd : ℤ) (a : ConceptRecord) (b : DueRecord)
    (h : due_entry cd a = some b) : b.record = a := by
  rcases hnr : a.nextReviewDate with - | df
  · rw [due_entry_missing cd a hnr] at h
    cases h
  · rcases df with - | t
    · rw [due_entry_malformed cd a hnr] at h
      cases h
      rfl
    · rw [due_entry_valid cd a t hnr] at h
      split at h
      · cases h
        rfl
      · cases h

lemma mem_due_iff (records : List ConceptRecord) (cd now : ℤ) (d : DueRecord) :
    d ∈ get_due_concepts records (some cd) now ↔
      ∃ a ∈ records, due_entry cd a = some d := by
  unfold get_due_concepts
  rw [(List.perm_insertionSort _ _).mem_iff, List.mem_filterMap]
  simp only [Option.getD_some]

/-- Counterexample to claim C4 as stated: a record whose nextReviewDate is
missing is not included in the due list at all (the code skips it), rather
than being included with daysOverdue = 999. -/
theorem C4_counterexample_missing_excluded :
    (⟨0, none, none⟩ : ConceptRecord).nextReviewDate = none ∧
    get_due_concepts [(⟨0, none, none⟩ : ConceptRecord)] (some 0) 0 = [] :=
  ⟨rfl, by simp [get_due_concepts, due_entry, List.filterMap, List.insertionSort]⟩

/-- Claim C4 as amended: in get_due_concepts, a record with a present but
malformed nextReviewDate is included with daysOverdue = 999; a record with a
parseable date not after the current date is included with the day difference;
a record with a missing nextReviewDate is skipped; a record with a parseable
date strictly in the future is excluded. No error is ever raised (the function
is total). -/
theorem C4_amended_due_behaviour (records : List ConceptRecord) (cd now : ℤ)
    (r : ConceptRecord) (hr : r ∈ records) :
    (r.nextReviewDate = some DateField.malformed →
      (⟨r, 999⟩ : DueRecord) ∈ get_due_concepts records (some cd) now) ∧
    (∀ t : ℤ, r.nextReviewDate = some (DateField.valid t) → t ≤ cd →
      (⟨r, cd - t⟩ : DueRecord) ∈ get_due_concepts records (some cd) now) ∧
    (r.nextReviewDate = none →
      ∀ d : ℤ, (⟨r, d⟩ : DueRecord) ∉ get_due_concepts records (some cd) now) ∧
    (∀ t : ℤ, r.nextReviewDate = some (DateField.valid t) → cd < t →
      ∀ d : ℤ, (⟨r, d⟩ : DueRecord) ∉ get_due_concepts records (some cd) now) := by
  refine ⟨?_, ?_, ?_, ?_⟩
  · intro h
    rw [mem_due_iff]
    exact ⟨r, hr, due_entry_malformed cd r h⟩
  · intro t ht hle
    rw [mem_due_iff]
    exact ⟨r, hr, by rw [due_entry_valid cd r t ht, if_pos hle]⟩
  · intro hn d hd
    rw [mem_due_iff] at hd
    obtain ⟨a, ha, hae⟩ := hd
    have hrec : a = r := (due_entry_record cd a ⟨r, d⟩ hae).symm
    rw [hrec, due_entry_missing cd r hn] at hae
    cases hae
  · intro t ht hgt d hd
    rw [mem_due_iff] at hd
    obtain ⟨a, ha, hae⟩ := hd
    have hrec : a = r := (due_entry_record cd a ⟨r, d⟩ hae).symm
    rw [hrec, due_entry_valid cd r t ht, if_neg (not_le.mpr hgt)] at hae
    cases hae

/-- Witness for the amended C4 at a single malformed-date record. -/
theorem C4_witness :
    (⟨0, none, some DateField.malformed⟩ : ConceptRecord) ∈
      [(⟨0, none, some DateField.malformed⟩ : ConceptRecord)] ∧
    (⟨0, none, some DateField.malformed⟩ : ConceptRecord).nextReviewDate =
      some DateField.malformed ∧
    (⟨⟨0, none, some DateField.malformed⟩, 999⟩ : DueRecord) ∈
      get_due_concepts [(⟨0, none, some DateField.malformed⟩ : ConceptRecord)]
        (some 0) 0 :=
  ⟨List.mem_singleton.mpr rfl, rfl,
    (C4_amended_due_behaviour [⟨0, none, some DateField.malformed⟩] 0 0
      ⟨0, none, some DateField.malformed⟩ (List.mem_singleton.mpr rfl)).1 rfl⟩

/-- Claim C6: calculate_risk_score with currentScores = [50], empty trend,
consistency 0.9, improvementRate 2.0, weeksUntilExam 8 yields avgScore 50
(adding 0.4), predictedScore 66 below 75 (adding 0.3), no other factor fires,
riskScore 0.7 and riskLevel "high". -/
theorem C6_risk_example :
    calculate_risk_score [50] [] 0.9 2 8 =
      { riskScore := 0.7, riskLevel := "high", predictedScore := 66,
        currentAverageScore := 50, weeksUntilExam := 8,
        riskFactors := [RiskFactor.avgBelow60,
          RiskFactor.predictedBelowPassing 66],
        recommendations := [Recommendation.urgentMeeting,
          Recommendation.studyThreeToFourHours,
          Recommendation.focusFundamentals, Recommendation.joinStudyGroup,
          Recommendation.reviewBasics, Recommendation.improveGap 9] } := by
  norm_num [calculate_risk_score, trend_slope, passing_score,
    high_risk_threshold, medium_risk_threshold, generate_recommendations]

/-- Counterexample to claim C9 as stated: when the wall-clock is the only
thing that differs, identical inputs produce different outputs, because
update_from_question_attempt stamps lastReviewed with the current time,
calculate_next_review with an absent lastReviewDate baselines on the current
time, and get_due_concepts with an absent current date compares against the
current time. -/
theorem C9_counterexample_wallclock :
    update_from_question_attempt 0.5 0 0 true 0 ≠
      update_from_question_attempt 0.5 0 0 true 1 ∧
    calculate_next_review 0.95 none 1 2.5 0 ≠
      calculate_next_review 0.95 none 1 2.5 1 ∧
    get_due_concepts [⟨0, none, some (DateField.valid 5)⟩] none 5 ≠
      get_due_concepts [⟨0, none, some (DateField.valid 5)⟩] none 4 := by
  refine ⟨?_, ?_, ?_⟩
  · intro h
    have h2 := congrArg AttemptResult.lastReviewed h
    simp [update_from_question_attempt] at h2
  · intro h
    have h2 := congrArg ReviewResult.nextReviewDate h
    norm_num [calculate_next_review, quality_of, next_interval_raw,
      min_interval, max_interval] at h2
  · intro h
    have h2 := congrArg List.length h
    norm_num [get_due_concepts, due_entry, List.filterMap,
      List.insertionSort] at h2

/-- Claim C9 as amended: every core operation is a deterministic function of
its explicit inputs together with the ambient wall-clock time, and is
independent of the wall-clock whenever the optional dates are supplied; the
purely arithmetic operations are deterministic in their inputs alone. -/
theorem C9_amended_determinism (m : ℚ) (b : Bool) (records : List ConceptRecord)
    (threshold : ℚ) (last cd ci : ℤ) (ef : ℚ) (scores trend : List ℚ)
    (consistency improvement : ℚ) (weeks : ℤ) (now₁ now₂ : ℤ) :
    update_mastery m b = update_mastery m b ∧
    get_mastery_level m = get_mastery_level m ∧
    get_weak_concepts records threshold = get_weak_concepts records threshold ∧
    get_mastery_summary records = get_mastery_summary records ∧
    calculate_next_review m (some last) ci ef now₁ =
      calculate_next_review m (some last) ci ef now₂ ∧
    get_due_concepts records (some cd) now₁ =
      get_due_concepts records (some cd) now₂ ∧
    calculate_risk_score scores trend consistency improvement weeks =
      calculate_risk_score scores trend consistency improvement weeks :=
  ⟨rfl, rfl, rfl, rfl, rfl, rfl, rfl⟩
